import Mathlib

/-!
Verification of the KorMapChart choropleth renderer (ES5 variant,
`src/KorMapChartES5.js`) against its natural-language specification.

The JavaScript source is shallowly embedded: numbers are modelled as
rationals (`ℚ`), the JS values `null` and `NaN` that flow into the rate
pipeline are modelled by an explicit `RateInput` type, fallible lookups
return `Option`, and the DOM-mutating pipeline of `render` is modelled as
an explicit effect trace.  Locale-specific integer formatting
(`toLocaleString('ko-KR')`) is abstracted to `toString`; only its
missing-value branch ("-") is relevant to the claims.
-/

namespace KorMap

/-- Input to the rate pipeline: a JS `null`, a JS `NaN`, or a finite
number.  Needed because `Number(null) = 0` while `Number(NaN) = NaN`,
which the color scale's `_clamp01` distinguishes. -/
inductive RateInput where
  | jnull : RateInput
  | nan : RateInput
  | num (q : ℚ) : RateInput
deriving DecidableEq

/-- Numeric clamp to [0,1], `Math.min(1, Math.max(0, n))` from
`_clamp01` (src/KorMapChartES5.js:50-54). -/
def clampQ (q : ℚ) : ℚ := min 1 (max 0 q)

/-- Embeds `_clamp01` (src/KorMapChartES5.js:50-54): `Number(v)` coerces
`null` to `0` (finite), `NaN` stays `NaN` (non-finite, so `null` is
returned); a finite number is clamped to [0,1]. -/
def clamp01 : RateInput → Option ℚ
  | .jnull => some 0
  | .nan => none
  | .num q => some (clampQ q)

/-- Default thresholds `[0.8, 0.6, 0.4, 0.2]` substituted by
`_makeColorForRate` when the caller's list is missing or empty. -/
def defaultTh : List ℚ := [4/5, 3/5, 2/5, 1/5]

/-- Default color ramp substituted when the caller's list is missing or
empty.  Entries are `Option String` because a JS color array may hold
`null` holes. -/
def defaultCs : List (Option String) :=
  [some "#00085A", some "#1F48FF", some "#79a1ee", some "#99d9f2", some "#D7D7D7"]

/-- Effective threshold list: `Array.isArray(thresholds) && thresholds.length ? thresholds : defaults`
(src/KorMapChartES5.js:57). -/
def effTh (th : List ℚ) : List ℚ := if th.isEmpty then defaultTh else th

/-- Effective color list (src/KorMapChartES5.js:58). -/
def effCs (cs : List (Option String)) : List (Option String) :=
  if cs.isEmpty then defaultCs else cs

/-- Fallback color: `cs[cs.length-1] != null ? cs[last] : '#D7D7D7'`
(src/KorMapChartES5.js:59-60). -/
def fallbackOf (cs : List (Option String)) : String :=
  match cs.getLast? with
  | some (some c) => c
  | _ => "#D7D7D7"

/-- The threshold scan loop of the closure returned by
`_makeColorForRate` (src/KorMapChartES5.js:65-71): the first threshold
`t` with `r >= t` selects the color at the same index (`cs[i]`, falling
back when that entry is null or out of range); if no threshold is met
the fallback is returned. -/
def scanColor (fb : String) (q : ℚ) : List ℚ → List (Option String) → String
  | [], _ => fb
  | t :: ts, cs =>
      if t ≤ q then
        match cs with
        | some c :: _ => c
        | _ => fb
      else scanColor fb q ts cs.tail

/-- Embeds the closure produced by `_makeColorForRate`
(src/KorMapChartES5.js:56-73). -/
def colorForRate (th : List ℚ) (cs : List (Option String)) (r : RateInput) : String :=
  let t := effTh th
  let c := effCs cs
  let fb := fallbackOf c
  match clamp01 r with
  | none => fb
  | some q => scanColor fb q t c

/-- Index of the threshold selected by the scan loop for a clamped rate
`q`: the first position `i` with `th[i] ≤ q`, or `th.length` when the
loop falls through to the fallback. -/
def selIdx (q : ℚ) : List ℚ → ℕ
  | [] => 0
  | t :: ts => if t ≤ q then 0 else selIdx q ts + 1

/-- Color stored at index `i` of the color list, with the scan loop's
null/out-of-range fallback behaviour. -/
def colorAt (cs : List (Option String)) (i : ℕ) (fb : String) : String :=
  match cs[i]? with
  | some (some c) => c
  | _ => fb

lemma clampQ_mono {q₁ q₂ : ℚ} (h : q₂ ≤ q₁) : clampQ q₂ ≤ clampQ q₁ :=
  min_le_min le_rfl (max_le_max le_rfl h)

lemma clampQ_of_mem {t : ℚ} (h0 : 0 ≤ t) (h1 : t ≤ 1) : clampQ t = t := by
  unfold clampQ
  rw [max_eq_right h0, min_eq_right h1]

lemma selIdx_mono {q₁ q₂ : ℚ} (h : q₂ ≤ q₁) :
    ∀ l : List ℚ, selIdx q₁ l ≤ selIdx q₂ l := by
  intro l
  induction l with
  | nil => exact le_rfl
  | cons t ts ih =>
      by_cases h1 : t ≤ q₁
      · simp [selIdx, h1]
      · have h2 : ¬ t ≤ q₂ := fun hc => h1 (hc.trans h)
        simp only [selIdx, if_neg h1, if_neg h2]
        exact Nat.succ_le_succ ih

lemma selIdx_get {th : List ℚ} (hsort : th.Sorted (· > ·)) :
    ∀ i : Fin th.length, selIdx (th.get i) th = i := by
  induction th with
  | nil => intro i; exact absurd i.isLt (by simp)
  | cons t ts ih =>
      intro i
      rcases List.sorted_cons.mp hsort with ⟨hall, hts⟩
      match i with
      | ⟨0, _⟩ => simp [selIdx]
      | ⟨n + 1, hn⟩ =>
          have hmem : ts.get ⟨n, Nat.lt_of_succ_lt_succ hn⟩ ∈ ts :=
            List.get_mem ts n (Nat.lt_of_succ_lt_succ hn)
          have hgt : t > ts.get ⟨n, Nat.lt_of_succ_lt_succ hn⟩ := hall _ hmem
          have hne : ¬ t ≤ ts.get ⟨n, Nat.lt_of_succ_lt_succ hn⟩ := not_le.mpr hgt
          simp only [List.get_cons_succ, selIdx, if_neg hne]
          exact congrArg (· + 1) (ih hts ⟨n, Nat.lt_of_succ_lt_succ hn⟩)

lemma getElem?_tail {α : Type} (l : List α) (n : ℕ) : l.tail[n]? = l[n + 1]? := by
  cases l <;> simp

lemma scanColor_eq_colorAt {fb : String} {q : ℚ} :
    ∀ (th : List ℚ) (cs : List (Option String)), selIdx q th < th.length →
      scanColor fb q th cs = colorAt cs (selIdx q th) fb := by
  intro th
  induction th with
  | nil => intro cs h; simp [selIdx] at h
  | cons t ts ih =>
      intro cs h
      by_cases h1 : t ≤ q
      · simp only [scanColor, if_pos h1, selIdx, colorAt]
        cases cs with
        | nil => simp
        | cons c cs' => cases c <;> simp
      · simp only [selIdx, if_neg h1] at h ⊢
        simp only [scanColor, if_neg h1]
        rw [ih cs.tail (Nat.lt_of_succ_lt_succ h), colorAt, colorAt, getElem?_tail]

/-- A per-region datum as supplied in `opts.data`: a bare (finite) JS
number, a JS `null`, or a composite record `{count, rate}` whose fields
may be absent or null (`none`). -/
inductive Datum where
  | num (q : ℚ) : Datum
  | null : Datum
  | obj (count : Option ℤ) (rate : Option ℚ) : Datum
deriving DecidableEq

/-- Sort key extraction of `_buildBars` (src/KorMapChartES5.js:304-306):
`rate = (typeof v === 'number') ? v : (v && v.rate)`, then
`rate == null ? -Infinity : rate`.  `⊥` plays the role of `-Infinity`. -/
def barKey : Datum → WithBot ℚ
  | .num q => (q : WithBot ℚ)
  | .null => ⊥
  | .obj _ none => ⊥
  | .obj _ (some q) => (q : WithBot ℚ)

/-- Entry extraction loop of `_buildBars` (src/KorMapChartES5.js:300-307);
`dataMap` is modelled as an association list in object-iteration order. -/
def barEntries (data : List (String × Datum)) : List (String × WithBot ℚ) :=
  data.map fun p => (p.1, barKey p.2)

/-- The comparator `function (a, b) { return b[1] - a[1]; }` of
src/KorMapChartES5.js:309 orders entries by descending rate: `a`
precedes `b` when `b`'s key is at most `a`'s. -/
def barGe (a b : String × WithBot ℚ) : Prop := b.2 ≤ a.2

instance : DecidableRel barGe := fun a b => inferInstanceAs (Decidable (b.2 ≤ a.2))

instance : IsTotal (String × WithBot ℚ) barGe := ⟨fun a b => le_total b.2 a.2⟩

instance : IsTrans (String × WithBot ℚ) barGe := ⟨fun _ _ _ h1 h2 => h2.trans h1⟩

/-- The sorted entry list `entries.sort(...)` (src/KorMapChartES5.js:309). -/
def barSorted (data : List (String × Datum)) : List (String × WithBot ℚ) :=
  List.insertionSort barGe (barEntries data)

/-- Per-row display rate of `_buildBars` (src/KorMapChartES5.js:315):
`r = _clamp01(rRaw) || 0`, where `_clamp01(-Infinity) = null` and
`null || 0 = 0`. -/
def barRate (k : WithBot ℚ) : ℚ := clampQ (k.unbot' 0)

/-- JS `Math.round`: round half toward positive infinity. -/
def jsRound (q : ℚ) : ℤ := ⌊q + 1/2⌋

/-- Embeds `_fmtPct` (src/KorMapChartES5.js:42-44): `null`/`NaN` (here
`none`) shows the "-" placeholder, a number shows a rounded percent. -/
def fmtPct : Option ℚ → String
  | none => "-"
  | some q => toString (jsRound (q * 100)) ++ "%"

/-- Names and value labels of the rows emitted by `_buildBars`
(src/KorMapChartES5.js:311-354): each sorted entry yields a row whose
value label is `_fmtPct(r)` for the coerced rate `r`. -/
def barRowLabels (data : List (String × Datum)) : List (String × String) :=
  (barSorted data).map fun e => (e.1, fmtPct (some (barRate e.2)))

/-- Embeds `_fmtInt` (src/KorMapChartES5.js:46-48); the `ko-KR` locale
grouping of a present integer is abstracted to `toString`, the
missing-value branch is the "-" placeholder. -/
def fmtInt : Option ℤ → String
  | none => "-"
  | some n => toString n

/-- Count extraction in `_buildCallouts` (src/KorMapChartES5.js:432-433):
`count = (typeof dv === 'number') ? null : (dv && dv.count)`. -/
def calloutCount : Option Datum → Option ℤ
  | none => none
  | some (.num _) => none
  | some .null => none
  | some (.obj c _) => c

/-- Default callout label text (src/KorMapChartES5.js:434-436), the
branch taken when no custom formatter is supplied:
`name + ' : ' + _fmtInt(count)`. -/
def calloutText (name : String) (dv : Option Datum) : String :=
  name ++ " : " ++ fmtInt (calloutCount dv)

/-- Result of `_computeBBox` (src/KorMapChartES5.js:92-111): the union
bounding box of the painted paths with its horizontal center `cx`.
Also the `frame` all callouts measure sidedness against. -/
structure BBox where
  x : ℚ
  y : ℚ
  w : ℚ
  h : ℚ
  cx : ℚ
deriving DecidableEq

/-- A parsed `viewBox` attribute. -/
structure ViewBox where
  x : ℚ
  y : ℚ
  w : ℚ
  h : ℚ
deriving DecidableEq

/-- Viewport handling of `_buildCallouts` (src/KorMapChartES5.js:363-377):
read the current `viewBox` (seeding it from `bbox` when absent), then
rewrite it shifted left by `padding = pad + extra` and widened by
`padding * 2`.  Returns the attribute value after the call. -/
def applyCalloutViewport (vb : Option ViewBox) (bbox : BBox) (pad extra : ℚ) : ViewBox :=
  let v := match vb with
    | some v => v
    | none => ⟨bbox.x, bbox.y, bbox.w, bbox.h⟩
  let padding := pad + extra
  ⟨v.x - padding, v.y, v.w + padding * 2, v.h⟩

/-- The numeric callout options after defaulting:
`pad = calloutOpts.padding || 0`, `extra = calloutOpts.margin || 0`,
`textOffset = calloutOpts.textOffset || 0` (src/KorMapChartES5.js:373-374,405). -/
structure CalloutOpts where
  padding : ℚ
  margin : ℚ
  textOffset : ℚ
deriving DecidableEq

/-- The per-region bounding box returned by `path.getBBox()`. -/
structure RegionBox where
  x : ℚ
  y : ℚ
  w : ℚ
  h : ℚ
deriving DecidableEq

/-- Anchor x of a region's callout (src/KorMapChartES5.js:392-398):
bounding-box center x plus the per-region offset's x component. -/
def calloutAnchorX (b : RegionBox) (off : ℚ × ℚ) : ℚ := b.x + b.w / 2 + off.1

/-- Geometry of one routed callout. -/
structure Callout where
  leftSide : Bool
  lineEndX : ℚ
  labelX : ℚ
  anchorEnd : Bool
deriving DecidableEq

/-- Per-region routing of `_buildCallouts` (src/KorMapChartES5.js:379-426):
`leftSide = cx < bbox.cx`; `leftX = bbox.x - pad`,
`rightX = bbox.x + bbox.w + pad` (note: `pad` is `calloutOpts.padding`
alone, the `margin` option enters only the viewport expansion); the
leader line ends at `endX + textDx` and the text is placed at `endX`
with `text-anchor` end/start by side. -/
def routeCallout (frame : BBox) (o : CalloutOpts) (b : RegionBox) (off : ℚ × ℚ) : Callout :=
  let cx := calloutAnchorX b off
  let leftX := frame.x - o.padding
  let rightX := frame.x + frame.w + o.padding
  let leftSide : Bool := decide (cx < frame.cx)
  let endX := if leftSide then leftX else rightX
  let textDx := o.textOffset * (if leftSide then -1 else 1)
  ⟨leftSide, endX + textDx, endX, leftSide⟩

/-- Value coercion `(data[i].data || 0)` of `_createPieChart`
(src/KorMapChartES5.js:125,133): a missing/null value counts as 0. -/
def pieVal (i : Option ℚ) : ℚ := i.getD 0

/-- Total of the pie data (src/KorMapChartES5.js:123-126). -/
def pieTotal (items : List (Option ℚ)) : ℚ := (items.map pieVal).sum

/-- Angles of the slice paths emitted by `_createPieChart`
(src/KorMapChartES5.js:113-191): an exactly-zero total returns the empty
group before the loop; inside the loop a slice with `angle === 0` is
skipped, every other slice appends one path. -/
def pieSlices (items : List (Option ℚ)) : List ℚ :=
  if pieTotal items = 0 then []
  else items.filterMap fun it =>
    let angle := pieVal it / pieTotal items * 360
    if angle = 0 then none else some angle

/-- Pointer events the interaction controller of `_bindRegionEvents`
reacts to: region mouseenter/mouseleave/click, and a click whose target
is the root SVG surface itself. -/
inductive Ev where
  | enter (r : String) : Ev
  | leave (r : String) : Ev
  | click (r : String) : Ev
  | bgClick : Ev
deriving DecidableEq

/-- Selection effect of the per-region click handler
(src/KorMapChartES5.js:609-644): a different selected region is
deselected first (`deselectRegion`, clearing `selectedPath`), then the
clicked region is selected unless it already is. -/
def clickStep (s : Option String) (r : String) : Option String :=
  let s1 := match s with
    | some cur => if cur ≠ r then none else some cur
    | none => none
  match s1 with
  | some cur => if cur ≠ r then some r else some cur
  | none => some r

/-- One event step of the controller state (the `selectedPath`
variable, src/KorMapChartES5.js:489): mouseenter/mouseleave never touch
the selection; a click on a bound region runs the click handler; a
background click (target is the SVG itself, src/KorMapChartES5.js:674-679)
runs `deselectRegion`. -/
def stepEv (regions : List String) (s : Option String) : Ev → Option String
  | .enter _ => s
  | .leave _ => s
  | .click r => if r ∈ regions then clickStep s r else s
  | .bgClick => none

/-- Controller state after a sequence of dispatched events, starting
from the initial `selectedPath = null` (src/KorMapChartES5.js:489). -/
def runEvents (regions : List String) (evs : List Ev) : Option String :=
  evs.foldl (stepEv regions) none

/-- The bound regions currently in the Selected state: those whose
element the selection reference points to. -/
def selectedRegions (regions : List String) (s : Option String) : List String :=
  regions.dedup.filter fun r => decide (s = some r)

/-- Observable side effects of `render` (src/KorMapChartES5.js:683-742),
in program order. -/
inductive Effect where
  | clearContainer : Effect
  | setContainerCss : Effect
  | mountSvg : Effect
  | clearFills : Effect
  | paintRegions : Effect
  | placeLabels : Effect
  | bindEvents : Effect
  | buildBars : Effect
  | buildCallouts : Effect
deriving DecidableEq

/-- Hard errors thrown by `render`. -/
inductive RenderError where
  | mountNotFound : RenderError
  | modeMissing : RenderError
  | barMissing : RenderError
  | calloutsMissing : RenderError
deriving DecidableEq

/-- The options of `render` relevant to its control flow: `mode` (with
`none` for a missing or falsy mode string) and whether the `bar` and
`callouts` options are present (truthy). -/
structure RenderOpts where
  mode : Option String
  bar : Bool
  callouts : Bool
deriving DecidableEq

/-- Effect trace of `render` (src/KorMapChartES5.js:683-742): resolve
the mount (throwing if absent); clear the container and set its CSS;
after the SVG loads, append it and strip its fills; only then validate
`mode` and the mode-specific options, throwing on failure; finally
paint, label, bind events and build the mode's annotation.  Returns the
effects performed, paired with the error raised (if any). -/
def renderTrace (mountFound : Bool) (o : RenderOpts) : List Effect × Option RenderError :=
  if ¬ mountFound then ([], some .mountNotFound)
  else
    let pre : List Effect := [.clearContainer, .setContainerCss, .mountSvg, .clearFills]
    match o.mode with
    | none => (pre, some .modeMissing)
    | some m =>
        if m = "rate+bars" ∧ o.bar = false then (pre, some .barMissing)
        else if m = "count+callouts" ∧ o.callouts = false then (pre, some .calloutsMissing)
        else
          (pre ++ [.paintRegions, .placeLabels, .bindEvents] ++
            (if m = "rate+bars" then [.buildBars]
             else if m = "count+callouts" then [.buildCallouts] else []), none)

lemma scanColor_fallback {fb : String} {q : ℚ} :
    ∀ (th : List ℚ) (cs : List (Option String)), (∀ t ∈ th, q < t) →
      scanColor fb q th cs = fb := by
  intro th
  induction th with
  | nil => intro cs _; rfl
  | cons t ts ih =>
      intro cs hall
      have h1 : ¬ t ≤ q := not_le.mpr (hall t (by simp))
      simp only [scanColor, if_neg h1]
      exact ih cs.tail fun x hx => hall x (by simp [hx])

lemma filter_sel_len :
    ∀ l : List String, l.Nodup → ∀ s : Option String,
      (l.filter fun r => decide (s = some r)).length ≤ 1 := by
  intro l hl s
  cases s with
  | none => simp
  | some x =>
      induction l with
      | nil => simp
      | cons a l ih =>
          rcases List.nodup_cons.mp hl with ⟨ha, hl'⟩
          rw [List.filter_cons]
          by_cases hx : x = a
          · subst hx
            rw [if_pos (by simp)]
            have hnil : (l.filter fun r => decide (some x = some r)) = [] := by
              rw [List.filter_eq_nil_iff]
              intro b hb
              simp only [decide_eq_true_eq, Option.some.injEq]
              intro hxb
              subst hxb
              exact ha hb
            rw [hnil]
            simp
          · rw [if_neg (by simp [hx])]
            exact ih hl'

lemma runEvents_append_bgClick (regions : List String) (evs : List Ev) :
    runEvents regions (evs ++ [Ev.bgClick]) = none := by
  simp [runEvents, List.foldl_append, stepEv]

/-- C1.  In the ES5 interaction controller, after any finite sequence of
mouseenter/mouseleave/click events dispatched across the bound regions,
at most one region is in the Selected state (the `selectedPath`
reference points to at most one region), and after a background click —
a click whose target is the root SVG surface itself — zero regions are
Selected. -/
theorem c1_single_selection :
    ∀ (regions : List String) (evs : List Ev),
      (selectedRegions regions (runEvents regions evs)).length ≤ 1 ∧
      selectedRegions regions (runEvents regions (evs ++ [Ev.bgClick])) = [] := by
  intro regions evs
  refine ⟨filter_sel_len _ (List.nodup_dedup regions) _, ?_⟩
  rw [selectedRegions, runEvents_append_bgClick]
  simp

/-- C2 (counterexample).  The claim asserts that when `options.mode` is
missing, `render` fails before any rendering side effect: in particular
the container is not cleared and no SVG is mounted.  At the concrete
input `mode = none` the code does raise the hard error, but the trace
it has already performed contains both the container clearing and the
SVG mounting, refuting the claim. -/
theorem c2_counterexample :
    (renderTrace true ⟨none, false, false⟩).2 = some RenderError.modeMissing ∧
    Effect.clearContainer ∈ (renderTrace true ⟨none, false, false⟩).1 ∧
    Effect.mountSvg ∈ (renderTrace true ⟨none, false, false⟩).1 := by
  decide

/-- C2 (amended).  If `options.mode` is missing, or mode is
`"rate+bars"` without a bar option, or `"count+callouts"` without a
callouts option, `render` fails with a hard error; the failure is
raised only after the mount container has been cleared and the fetched
SVG appended, but before any painting, labelling, event binding or
mode-specific annotation (bars/callouts) — the performed trace is
exactly [clearContainer, setContainerCss, mountSvg, clearFills]. -/
theorem c2_hard_error_trace :
    ∀ o : RenderOpts,
      (o.mode = none ∨ (o.mode = some "rate+bars" ∧ o.bar = false) ∨
        (o.mode = some "count+callouts" ∧ o.callouts = false)) →
      (renderTrace true o).2.isSome = true ∧
      (renderTrace true o).1 =
        [Effect.clearContainer, Effect.setContainerCss, Effect.mountSvg, Effect.clearFills] := by
  intro o h
  rcases h with h | ⟨hm, hb⟩ | ⟨hm, hc⟩
  · simp [renderTrace, h]
  · simp [renderTrace, hm, hb]
  · simp [renderTrace, hm, hc]

/-- C2 (witness). -/
theorem c2_witness :
    ((RenderOpts.mk none false false).mode = none ∨
      ((RenderOpts.mk none false false).mode = some "rate+bars" ∧
        (RenderOpts.mk none false false).bar = false) ∨
      ((RenderOpts.mk none false false).mode = some "count+callouts" ∧
        (RenderOpts.mk none false false).callouts = false)) ∧
    (renderTrace true (RenderOpts.mk none false false)).2.isSome = true ∧
    (renderTrace true (RenderOpts.mk none false false)).1 =
      [Effect.clearContainer, Effect.setContainerCss, Effect.mountSvg, Effect.clearFills] :=
  ⟨Or.inl rfl, (c2_hard_error_trace _ (Or.inl rfl)).1,
    (c2_hard_error_trace _ (Or.inl rfl)).2⟩

/-- C3 (counterexample).  The claim asserts that a second invocation of
the callout router on the same surface with identical inputs leaves the
viewport width at `W + 2P`.  With frame width 300 and combined padding
20, the first pass yields width 340, but the second pass re-reads the
already-expanded `viewBox` and pads again, yielding 380 ≠ 340. -/
theorem c3_counterexample :
    (applyCalloutViewport none ⟨0, 0, 300, 500, 150⟩ 20 0).w = 340 ∧
    (applyCalloutViewport (some (applyCalloutViewport none ⟨0, 0, 300, 500, 150⟩ 20 0))
        ⟨0, 0, 300, 500, 150⟩ 20 0).w = 380 ∧
    (380 : ℚ) ≠ 300 + 2 * 20 := by
  norm_num [applyCalloutViewport]

/-- C3 (amended).  For a surface whose `viewBox` is absent and seeded
from a frame of width `W`, one routing pass leaves the viewport width
exactly `W + 2P` (left edge shifted by `P = padding + margin`); a second
pass on the same surface with identical inputs compounds the padding,
leaving width `W + 4P` and left edge shifted by `2P` — re-invocation
re-stacks the padding instead of being a no-op. -/
theorem c3_viewport_expansion :
    ∀ (bb : BBox) (pad extra : ℚ),
      (applyCalloutViewport none bb pad extra).w = bb.w + 2 * (pad + extra) ∧
      (applyCalloutViewport none bb pad extra).x = bb.x - (pad + extra) ∧
      (applyCalloutViewport (some (applyCalloutViewport none bb pad extra)) bb pad extra).w =
        bb.w + 4 * (pad + extra) ∧
      (applyCalloutViewport (some (applyCalloutViewport none bb pad extra)) bb pad extra).x =
        bb.x - 2 * (pad + extra) := by
  intro bb pad extra
  refine ⟨?_, ?_, ?_, ?_⟩ <;> simp [applyCalloutViewport] <;> ring

/-- C4 (counterexample).  The claim asserts callouts route to the
margin at `frame.x ± padding` with `padding = options.padding +
options.margin`.  With frame `{x:0, width:300, centerX:150}`,
`options.padding = 20` and `options.margin = 12`, a left-side anchor at
x=50 routes to x=-20 (the code uses `options.padding` alone), not to
`frame.x - (padding + margin) = -32` as the claim requires. -/
theorem c4_counterexample :
    (routeCallout ⟨0, 0, 300, 500, 150⟩ ⟨20, 12, 0⟩ ⟨25, 0, 50, 10⟩ (0, 0)).leftSide = true ∧
    (routeCallout ⟨0, 0, 300, 500, 150⟩ ⟨20, 12, 0⟩ ⟨25, 0, 50, 10⟩ (0, 0)).labelX = -20 ∧
    ((0 : ℚ) - (20 + 12)) = -32 ∧ ((-20 : ℚ) ≠ -32) := by
  norm_num [routeCallout, calloutAnchorX]

/-- C4 (amended).  A callout's side is left iff its anchor x
(bounding-box center plus per-region offset) is strictly less than
`frame.centerX`; a left-side callout routes to `frame.x −
options.padding` and a right-side one to `frame.x + frame.width +
options.padding` — the `margin` option does not enter the routing
coordinates (it affects only the viewport expansion).  With frame
`{x:0, width:300, centerX:150}` and `options.padding = 20`, an anchor at
x=50 routes to x=-20 and an anchor at x=250 routes to x=320. -/
theorem c4_side_and_margin :
    ∀ (frame : BBox) (padv marginv marginw toff : ℚ) (b : RegionBox) (off : ℚ × ℚ),
      routeCallout frame ⟨padv, marginv, toff⟩ b off =
        routeCallout frame ⟨padv, marginw, toff⟩ b off ∧
      ((routeCallout frame ⟨padv, marginv, toff⟩ b off).leftSide = true ↔
        calloutAnchorX b off < frame.cx) ∧
      (routeCallout frame ⟨padv, marginv, toff⟩ b off).labelX =
        (if calloutAnchorX b off < frame.cx then frame.x - padv
         else frame.x + frame.w + padv) ∧
      (routeCallout ⟨0, 0, 300, 500, 150⟩ ⟨20, marginv, 0⟩ ⟨25, 0, 50, 10⟩ (0, 0)).labelX = -20 ∧
      (routeCallout ⟨0, 0, 300, 500, 150⟩ ⟨20, marginv, 0⟩ ⟨225, 0, 50, 10⟩ (0, 0)).labelX = 320 := by
  intro frame padv marginv marginw toff b off
  refine ⟨rfl, ?_, ?_, ?_, ?_⟩
  · simp [routeCallout]
  · by_cases h : calloutAnchorX b off < frame.cx <;> simp [routeCallout, h]
  · norm_num [routeCallout, calloutAnchorX]
  · norm_num [routeCallout, calloutAnchorX]

/-- C5 (counterexample).  The claim asserts `colorFor(null)` returns
the fallback for every threshold/color configuration.  Because JS
coerces `Number(null)` to `0`, a configuration whose threshold list
contains `0` maps `null` to that threshold's color: with thresholds
`[0.5, 0]` and colors `["a", "b", "c"]`, `colorFor(null) = "b"` while
the fallback (and `colorFor(NaN)`) is `"c"`. -/
theorem c5_counterexample :
    colorForRate [(1 : ℚ)/2, 0] [some "a", some "b", some "c"] RateInput.jnull = "b" ∧
    colorForRate [(1 : ℚ)/2, 0] [some "a", some "b", some "c"] RateInput.nan = "c" ∧
    fallbackOf (effCs [some "a", some "b", some "c"]) = "c" ∧
    ("b" : String) ≠ "c" := by
  refine ⟨?_, ?_, rfl, by decide⟩
  · norm_num [colorForRate, effTh, effCs, fallbackOf, clamp01, clampQ, scanColor]
  · norm_num [colorForRate, effTh, effCs, fallbackOf, clamp01]

/-- C5 (amended).  `colorFor(NaN)` always returns the fallback color
(last entry of the effective color list, or the hard default).
`colorFor(null)` is coerced to rate 0 (JS `Number(null) = 0`), so it
returns the fallback exactly when 0 meets no threshold — in particular
whenever every configured threshold is strictly positive, which
includes the default configuration; a threshold ≤ 0 instead captures
`null`. -/
theorem c5_unknown_fallback :
    ∀ (th : List ℚ) (cs : List (Option String)),
      colorForRate th cs RateInput.nan = fallbackOf (effCs cs) ∧
      ((∀ t ∈ th, 0 < t) → colorForRate th cs RateInput.jnull = fallbackOf (effCs cs)) := by
  intro th cs
  constructor
  · simp [colorForRate, clamp01]
  · intro hpos
    have hall : ∀ t ∈ effTh th, (0 : ℚ) < t := by
      intro t ht
      unfold effTh at ht
      by_cases he : th.isEmpty
      · rw [if_pos he] at ht
        have h4 : t = 4/5 ∨ t = 3/5 ∨ t = 2/5 ∨ t = 1/5 := by
          simpa [defaultTh] using ht
        rcases h4 with h | h | h | h <;> (subst h; norm_num)
      · rw [if_neg he] at ht
        exact hpos t ht
    simp only [colorForRate, clamp01]
    exact scanColor_fallback (effTh th) (effCs cs) hall

/-- C5 (witness). -/
theorem c5_witness :
    (∀ t ∈ [(1 : ℚ)/2], 0 < t) ∧
    colorForRate [(1 : ℚ)/2] [some "a", some "b"] RateInput.jnull =
      fallbackOf (effCs [some "a", some "b"]) ∧
    colorForRate [(1 : ℚ)/2] [some "a", some "b"] RateInput.nan =
      fallbackOf (effCs [some "a", some "b"]) :=
  ⟨by norm_num, (c5_unknown_fallback _ _).2 (by norm_num), (c5_unknown_fallback _ _).1⟩

/-- C6.  For every nonempty strictly descending threshold list with
entries in [0,1] paired with a nonempty color list: for all rates
r1 ≥ r2, the index of the threshold selected for r1 is at most the
index selected for r2 (so `colorFor(r1)` never maps to a color of a
lower threshold than `colorFor(r2)`); and a value exactly equal to
threshold i selects index i — `colorFor` returns the color stored at
that index — not the next lower one. -/
theorem c6_threshold_monotonicity :
    ∀ (th : List ℚ) (cs : List (Option String)),
      th ≠ [] → cs ≠ [] → th.Sorted (· > ·) → (∀ t ∈ th, 0 ≤ t ∧ t ≤ 1) →
      (∀ r1 r2 : ℚ, r2 ≤ r1 → selIdx (clampQ r1) th ≤ selIdx (clampQ r2) th) ∧
      (∀ i : Fin th.length,
        selIdx (clampQ (th.get i)) th = i ∧
        colorForRate th cs (RateInput.num (th.get i)) = colorAt cs i (fallbackOf cs)) := by
  intro th cs hth hcs hsort hrange
  have hclamp : ∀ i : Fin th.length, clampQ (th.get i) = th.get i := by
    intro i
    rcases hrange _ (List.get_mem th i.1 i.2) with ⟨h0, h1⟩
    exact clampQ_of_mem h0 h1
  refine ⟨fun r1 r2 h => selIdx_mono (clampQ_mono h) th, fun i => ?_⟩
  have hsel : selIdx (clampQ (th.get i)) th = i := by
    rw [hclamp i]; exact selIdx_get hsort i
  refine ⟨hsel, ?_⟩
  have hthe : effTh th = th := by
    unfold effTh
    rw [if_neg (by simpa [List.isEmpty_iff] using hth)]
  have hcse : effCs cs = cs := by
    unfold effCs
    rw [if_neg (by simpa [List.isEmpty_iff] using hcs)]
  simp only [colorForRate, clamp01, hthe, hcse]
  rw [scanColor_eq_colorAt th cs (by rw [hsel]; exact i.2), hsel]

/-- C6 (witness). -/
theorem c6_witness :
    (([3/4, 1/4] : List ℚ) ≠ [] ∧ ([some "x", some "y", some "z"] : List (Option String)) ≠ [] ∧
      ([3/4, 1/4] : List ℚ).Sorted (· > ·) ∧ (∀ t ∈ ([3/4, 1/4] : List ℚ), 0 ≤ t ∧ t ≤ 1)) ∧
    selIdx (clampQ (4/5)) [3/4, 1/4] ≤ selIdx (clampQ (1/5)) [3/4, 1/4] ∧
    selIdx (clampQ (([3/4, 1/4] : List ℚ).get ⟨0, by norm_num⟩)) [3/4, 1/4] = 0 ∧
    colorForRate [3/4, 1/4] [some "x", some "y", some "z"]
        (RateInput.num (([3/4, 1/4] : List ℚ).get ⟨0, by norm_num⟩)) =
      colorAt [some "x", some "y", some "z"] 0 (fallbackOf [some "x", some "y", some "z"]) := by
  have h := c6_threshold_monotonicity [3/4, 1/4] [some "x", some "y", some "z"]
    (by simp) (by simp) (by norm_num [List.sorted_cons]) (by norm_num)
  exact ⟨⟨by simp, by simp, by norm_num [List.sorted_cons], by norm_num⟩,
    h.1 (4/5) (1/5) (by norm_num), (h.2 ⟨0, by norm_num⟩).1, (h.2 ⟨0, by norm_num⟩).2⟩

/-- C7.  The bar builder extracts a rate from a bare-number datum or a
composite record's `.rate` field, treats a missing rate as `-Infinity`
(`⊥`), and emits rows sorted in descending order by rate; for data
`{A: 0.5, B: null, C: 0.9}` the emitted row order is `[C, A, B]`. -/
theorem c7_bar_ranking :
    (∀ data : List (String × Datum), (barSorted data).Sorted barGe) ∧
    (∀ q, barKey (Datum.num q) = (q : WithBot ℚ)) ∧
    barKey Datum.null = ⊥ ∧
    (∀ c, barKey (Datum.obj c none) = ⊥) ∧
    (∀ c q, barKey (Datum.obj c (some q)) = (q : WithBot ℚ)) ∧
    (barSorted [("A", Datum.num (1/2)), ("B", Datum.null), ("C", Datum.num (9/10))]).map
        Prod.fst = ["C", "A", "B"] := by
  refine ⟨fun data => List.sorted_insertionSort barGe (barEntries data),
    fun q => rfl, rfl, fun c => rfl, fun c q => rfl, ?_⟩
  norm_num [barSorted, barEntries, barKey, List.insertionSort, List.orderedInsert, barGe]

/-- C8.  The claim (and the repo's own header documentation, "결측치 표시
일관화('-')") say a bar row with a missing/unknown rate shows the "-"
placeholder.  The code coerces the missing rate to 0 before formatting
(`r = _clamp01(rRaw) || 0`), so `_fmtPct` receives a number and its "-"
branch is unreachable: for data `{A: 0.5, B: null, C: 0.9}` the row for
B is labelled "0%", not "-". -/
theorem c8_missing_rate_label :
    barRowLabels [("A", Datum.num (1/2)), ("B", Datum.null), ("C", Datum.num (9/10))] =
      [("C", "90%"), ("A", "50%"), ("B", "0%")] ∧
    fmtPct none = "-" ∧ ("0%" : String) ≠ "-" := by
  refine ⟨?_, rfl, by decide⟩
  norm_num [barRowLabels, barSorted, barEntries, barKey, List.insertionSort, List.orderedInsert,
    barGe, barRate, fmtPct, jsRound, clampQ, WithBot.unbot']
  exact ⟨rfl, rfl, rfl⟩

/-- C9 (counterexample).  The claim asserts a non-positive (zero or
negative) value sum produces an empty glyph.  Only an exactly-zero
total is guarded (`if (total === 0) return g`): the singleton data list
with value -1 has total -1 ≤ 0 yet emits one slice path (of angle
360°). -/
theorem c9_counterexample :
    pieTotal [some (-1)] = -1 ∧ pieTotal [some (-1)] ≤ 0 ∧
    pieSlices [some (-1)] = [360] ∧ pieSlices [some (-1)] ≠ [] := by
  refine ⟨by norm_num [pieTotal, pieVal], by norm_num [pieTotal, pieVal], ?_, ?_⟩
  · norm_num [pieSlices, pieTotal, pieVal, List.filterMap]
  · norm_num [pieSlices, pieTotal, pieVal, List.filterMap]

/-- C9 (amended).  A pie-glyph input list whose values sum to exactly
zero produces an empty glyph: no slice paths are emitted and no error
is raised.  (A strictly negative sum is not guarded and does emit
slices, see the counterexample.) -/
theorem c9_zero_sum_empty :
    ∀ items : List (Option ℚ), pieTotal items = 0 → pieSlices items = [] := by
  intro items h
  simp [pieSlices, h]

/-- C9 (witness). -/
theorem c9_witness :
    pieTotal [some 1, some (-1)] = 0 ∧ pieSlices [some 1, some (-1)] = [] :=
  ⟨by norm_num [pieTotal, pieVal], c9_zero_sum_empty _ (by norm_num [pieTotal, pieVal])⟩

/-- C10.  For a region whose datum is a bare number, the default
callout formatter treats the count as absent: the rendered text is
exactly `<name> : -`, even though the region has a numeric datum. -/
theorem c10_default_callout_count :
    ∀ (name : String) (q : ℚ),
      calloutText name (some (Datum.num q)) = name ++ " : -" := by
  intro name q
  simp [calloutText, calloutCount, fmtInt, String.append_assoc]

end KorMap
